import Mathlib

/-!
Verification of the grocery-receipt backend (`backend.py`).

The backend is a small HTTP gateway with three routes:

* `GET /` (`home`) — liveness check returning fixed text.
* `POST /parse-receipt` (`parse_receipt`) — forwards an uploaded image to an
  external inference collaborator and returns the collaborator response parsed
  as JSON.
* `POST /save-items` (`save_items`) — persists a JSON array of grocery items
  into a per-user collection of an external document store.

The two external collaborators (inference model, document store) are modelled
as explicit parameters: the inference call is a function from the prompt parts
to `Except String String` (exception message or response text), and the
document store is a function giving, for each add call in issue order, either
success or an exception message.  Each handler returns its HTTP response
together with an observable trace of the collaborator calls it issued.
-/

/-- JSON values, with numbers idealised as exact rationals. -/
inductive Json where
  | null : Json
  | bool (b : Bool) : Json
  | num (q : Rat) : Json
  | str (s : String) : Json
  | arr (elems : List Json) : Json
  | obj (members : List (String × Json)) : Json
  deriving Repr

/-- Whether a JSON value is an array (the shape of Python
`isinstance(x, list)` after `json` decoding). -/
def Json.isArr : Json → Bool
  | .arr _ => true
  | _ => false

/-! ### A model of Python `json.loads`

Modelled from the Python standard library behaviour the handlers rely on:
parse a complete JSON document, returning `none` (a `JSONDecodeError`) when
the text is not valid JSON or has trailing non-whitespace.
-/

/-- Drop leading JSON whitespace. -/
def skipWs : List Char → List Char
  | [] => []
  | c :: cs => if c = ' ' ∨ c = '\t' ∨ c = '\n' ∨ c = '\r' then skipWs cs else c :: cs

/-- Split a leading run of decimal digits from the rest. -/
def takeDigits : List Char → List Char × List Char
  | [] => ([], [])
  | c :: cs =>
    if c.isDigit then
      let r := takeDigits cs
      (c :: r.1, r.2)
    else ([], c :: cs)

/-- Decimal value of a digit string. -/
def digitsToNat (ds : List Char) : Nat :=
  ds.foldl (fun a c => 10 * a + (c.toNat - 48)) 0

/-- Value of a hex digit, if it is one. -/
def hexVal (c : Char) : Option Nat :=
  if '0' ≤ c ∧ c ≤ '9' then some (c.toNat - 48)
  else if 'a' ≤ c ∧ c ≤ 'f' then some (c.toNat - 87)
  else if 'A' ≤ c ∧ c ≤ 'F' then some (c.toNat - 55)
  else none

/-- Single-character JSON string escapes. -/
def escChar (c : Char) : Option Char :=
  if c = '"' then some '"'
  else if c = '\\' then some '\\'
  else if c = '/' then some '/'
  else if c = 'b' then some (Char.ofNat 8)
  else if c = 'f' then some (Char.ofNat 12)
  else if c = 'n' then some '\n'
  else if c = 'r' then some '\r'
  else if c = 't' then some '\t'
  else none

/-- Parse the body of a JSON string literal (the opening quote already
consumed); returns the decoded characters and the input after the closing
quote. -/
def parseStringChars : List Char → Option (List Char × List Char)
  | [] => none
  | '"' :: r => some ([], r)
  | '\\' :: 'u' :: a :: b :: c :: d :: r =>
    match hexVal a, hexVal b, hexVal c, hexVal d with
    | some ha, some hb, some hc, some hd =>
      (parseStringChars r).map
        (fun p => (Char.ofNat (((ha * 16 + hb) * 16 + hc) * 16 + hd) :: p.1, p.2))
    | _, _, _, _ => none
  | '\\' :: e :: r =>
    match escChar e with
    | some c => (parseStringChars r).map (fun p => (c :: p.1, p.2))
    | none => none
  | c :: r =>
    if c.toNat < 32 then none
    else (parseStringChars r).map (fun p => (c :: p.1, p.2))

/-- Parse a JSON number per the JSON grammar: optional minus sign, integer
part without leading zeros, optional fraction, optional exponent. -/
def parseNumber (cs : List Char) : Option (Rat × List Char) :=
  let signAndRest : Bool × List Char :=
    match cs with
    | '-' :: r => (true, r)
    | _ => (false, cs)
  let neg := signAndRest.1
  let cs1 := signAndRest.2
  let ipr := takeDigits cs1
  let ids := ipr.1
  let cs2 := ipr.2
  if ids = [] then none
  else if 1 < ids.length ∧ ids.headD '0' = '0' then none
  else
    let fracStep : Option (Nat × List Char) :=
      match cs2 with
      | '.' :: r =>
        let fr := takeDigits r
        if fr.1 = [] then none else some (fr.1.length, fr.2)
      | _ => some (0, cs2)
    match fracStep with
    | none => none
    | some (fLen, cs3) =>
      let mantissa : Nat := digitsToNat (ids ++ (cs2.drop 1).take fLen)
      let expStep : Option (Int × List Char) :=
        match cs3 with
        | 'e' :: r | 'E' :: r =>
          let esr : Bool × List Char :=
            match r with
            | '-' :: r2 => (true, r2)
            | '+' :: r2 => (false, r2)
            | _ => (false, r)
          let er := takeDigits esr.2
          if er.1 = [] then none
          else some (if esr.1 then -(digitsToNat er.1 : Int) else (digitsToNat er.1 : Int), er.2)
        | _ => some (0, cs3)
      match expStep with
      | none => none
      | some (e, cs4) =>
        let signedMantissa : Int := if neg then -(mantissa : Int) else (mantissa : Int)
        let value : Rat :=
          if 0 ≤ e then mkRat (signedMantissa * (10 : Int) ^ e.toNat) (10 ^ fLen)
          else mkRat signedMantissa (10 ^ fLen * 10 ^ (-e).toNat)
        some (value, cs4)

mutual

/-- Parse one JSON value (fuel-bounded recursion). -/
def parseValue : Nat → List Char → Option (Json × List Char)
  | 0, _ => none
  | fuel + 1, cs =>
    match skipWs cs with
    | 'n' :: 'u' :: 'l' :: 'l' :: r => some (Json.null, r)
    | 't' :: 'r' :: 'u' :: 'e' :: r => some (Json.bool true, r)
    | 'f' :: 'a' :: 'l' :: 's' :: 'e' :: r => some (Json.bool false, r)
    | '"' :: r => (parseStringChars r).map (fun p => (Json.str (String.mk p.1), p.2))
    | '[' :: r =>
      match skipWs r with
      | ']' :: r2 => some (Json.arr [], r2)
      | _ => (parseElems fuel r).map (fun p => (Json.arr p.1, p.2))
    | '\x7b' :: r =>
      match skipWs r with
      | '\x7d' :: r2 => some (Json.obj [], r2)
      | _ => (parseMembers fuel r).map (fun p => (Json.obj p.1, p.2))
    | cs1 => (parseNumber cs1).map (fun p => (Json.num p.1, p.2))

/-- Parse a non-empty comma-separated list of array elements, up to and
including the closing bracket. -/
def parseElems : Nat → List Char → Option (List Json × List Char)
  | 0, _ => none
  | fuel + 1, cs =>
    match parseValue fuel cs with
    | none => none
    | some (v, r) =>
      match skipWs r with
      | ',' :: r2 => (parseElems fuel r2).map (fun p => (v :: p.1, p.2))
      | ']' :: r2 => some ([v], r2)
      | _ => none

/-- Parse a non-empty comma-separated list of object members, up to and
including the closing brace. -/
def parseMembers : Nat → List Char → Option (List (String × Json) × List Char)
  | 0, _ => none
  | fuel + 1, cs =>
    match skipWs cs with
    | '"' :: r =>
      match parseStringChars r with
      | none => none
      | some (kcs, r2) =>
        match skipWs r2 with
        | ':' :: r3 =>
          match parseValue fuel r3 with
          | none => none
          | some (v, r4) =>
            match skipWs r4 with
            | ',' :: r5 => (parseMembers fuel r5).map (fun p => ((String.mk kcs, v) :: p.1, p.2))
            | '\x7d' :: r5 => some ([(String.mk kcs, v)], r5)
            | _ => none
        | _ => none
    | _ => none

end

/-- Model of Python `json.loads`: parse a complete JSON document; `none`
models a raised `JSONDecodeError`. -/
def json_loads (s : String) : Option Json :=
  match parseValue (2 * s.length + 8) s.toList with
  | some (j, r) => if skipWs r = [] then some j else none
  | none => none

/-! ### HTTP responses -/

/-- An HTTP response body: fixed text (the liveness route) or a `jsonify`
payload. -/
inductive RespBody where
  | text (s : String) : RespBody
  | json (j : Json) : RespBody

/-- An HTTP response: status code and body. -/
structure HttpResponse where
  status : Nat
  body : RespBody

/-- Body of `jsonify(\x7b"error": msg\x7d)`. -/
def errBody (msg : String) : Json := Json.obj [("error", Json.str msg)]

/-- Body of `jsonify(\x7b"message": msg\x7d)`. -/
def msgBody (msg : String) : Json := Json.obj [("message", Json.str msg)]

/-! ### `GET /` — `home` -/

/-- The `home` handler: reads no state, performs no side effect. -/
def home : HttpResponse := ⟨200, RespBody.text "The backend server is running!"⟩

/-! ### `POST /parse-receipt` — `parse_receipt` -/

/-- The alphabet used by `base64.b64encode`. -/
def base64Char (n : Nat) : Char :=
  if n < 26 then Char.ofNat (65 + n)
  else if n < 52 then Char.ofNat (97 + (n - 26))
  else if n < 62 then Char.ofNat (48 + (n - 52))
  else if n = 62 then '+' else '/'

/-- `base64.b64encode` over a byte list. -/
def b64encode : List Nat → List Char
  | [] => []
  | [a] => [base64Char (a / 4), base64Char (a % 4 * 16), '=', '=']
  | [a, b] => [base64Char (a / 4), base64Char (a % 4 * 16 + b / 16), base64Char (b % 16 * 4), '=']
  | a :: b :: c :: rest =>
    base64Char (a / 4) :: base64Char (a % 4 * 16 + b / 16) ::
      base64Char (b % 16 * 4 + c / 64) :: base64Char (c % 64) :: b64encode rest

/-- One element of the `prompt_parts` list sent to `generate_content`. -/
inductive PromptPart where
  | text (s : String) : PromptPart
  | inlineData (mimeType : String) (data : String) : PromptPart

/-- The fixed instruction prompt `prompt_text` of `parse_receipt`. -/
def prompt_text : String :=
  "You are a highly accurate receipt item parser. " ++
  "Take the provided image of a grocery receipt and extract a JSON array " ++
  "of objects. Each object in the array should have the following keys: " ++
  "\x27receiptName\x27 (the raw item name from the receipt), " ++
  "\x27humanName\x27 (a human-readable, common name for the item), " ++
  "\x27quantity\x27 (the number of units), " ++
  "\x27cost\x27 (the total cost for that item, as a float), " ++
  "\x27useByDate\x27 (a reasonable estimated use by date in YYYY-MM-DD format), and " ++
  "\x27storage\x27 (the most likely storage location: \x27Fridge\x27, \x27Freezer\x27, \x27Cupboard\x27, or \x27Countertop\x27)." ++
  "\n\nOnly return the JSON array. Do not include any other text."

/-- The `prompt_parts` list built by `parse_receipt` for the given image
bytes: the fixed prompt plus the base64-encoded JPEG payload. -/
def promptParts (imageBytes : List Nat) : List PromptPart :=
  [PromptPart.text prompt_text,
   PromptPart.inlineData "image/jpeg" (String.mk (b64encode imageBytes))]

/-- The uploaded file object: `.read()` either yields the bytes or raises
(with the exception text). -/
structure ImageFile where
  readResult : Except String (List Nat)

/-- A `POST /parse-receipt` request: the multipart file field `image`
(`none` when the field is absent). -/
structure ParseReceiptRequest where
  image : Option ImageFile

/-- The `parse_receipt` handler.  `generate` models
`model.generate_content`: from the prompt parts, either an exception message
or the response text.  Returns the HTTP response together with the prompt
parts of the one `generate_content` call issued, `none` when no call was
made. -/
def parse_receipt (req : ParseReceiptRequest)
    (generate : List PromptPart → Except String String) :
    HttpResponse × Option (List PromptPart) :=
  match req.image with
  | none => (⟨400, RespBody.json (errBody "No image file provided")⟩, none)
  | some image_file =>
    match image_file.readResult with
    | Except.error e =>
      (⟨500, RespBody.json (errBody ("Failed to read image file: " ++ e))⟩, none)
    | Except.ok image_bytes =>
      let prompt_parts := promptParts image_bytes
      match generate prompt_parts with
      | Except.error _ =>
        (⟨500, RespBody.json (errBody "An unexpected error occurred with the Gemini API.")⟩,
         some prompt_parts)
      | Except.ok text =>
        match json_loads text with
        | some parsed_data => (⟨200, RespBody.json parsed_data⟩, some prompt_parts)
        | none =>
          (⟨500, RespBody.json (errBody "Failed to parse data from Gemini. Invalid JSON response.")⟩,
           some prompt_parts)

/-! ### `POST /save-items` — `save_items` -/

/-- One `add` call issued against the document store: the collection path
and the document contents. -/
structure AddCall where
  path : String
  item : Json

/-- A `POST /save-items` request: the body as seen by `request.get_json()`
(`Except.error e` models `get_json` raising with message `e`, which includes
a body that is not parseable JSON), and the `X-User-ID` header (`none` when
absent). -/
structure SaveItemsRequest where
  body : Except String Json
  userId : Option String

/-- The collection path `artifacts/default-app-id/users/<u>/groceries`. -/
def collPath (u : String) : String :=
  "artifacts/default-app-id/users/" ++ u ++ "/groceries"

/-- The write loop of `save_items`: issue one `add` call per item in order;
`addResult k` tells whether the `k`-th issued call succeeds (`none`) or
raises (`some msg`).  Returns the issued calls, the persisted documents, and
the exception, if one was raised. -/
def saveLoop (addResult : Nat → Option String) (path : String) :
    List Json → Nat → List AddCall × List Json × Option String
  | [], _ => ([], [], none)
  | item :: rest, k =>
    match addResult k with
    | none =>
      let r := saveLoop addResult path rest (k + 1)
      (⟨path, item⟩ :: r.1, item :: r.2.1, r.2.2)
    | some msg => ([⟨path, item⟩], [], some msg)

/-- The `save_items` handler.  `dbInit` is whether the Firestore client
initialized at startup (`db is not None`); `addResult` models the outcome of
each `add` call in issue order.  Returns the HTTP response, the `add` calls
issued, and the documents persisted. -/
def save_items (dbInit : Bool) (addResult : Nat → Option String)
    (req : SaveItemsRequest) : HttpResponse × List AddCall × List Json :=
  if dbInit = false then
    (⟨500, RespBody.json (errBody "Database not initialized. Cannot save data.")⟩, [], [])
  else
    match req.body with
    | Except.error e =>
      (⟨500, RespBody.json
        (errBody ("An error occurred while saving to the database: " ++ e))⟩, [], [])
    | Except.ok items_data =>
      match items_data with
      | Json.arr items =>
        match req.userId with
        | none =>
          (⟨400, RespBody.json (errBody "User ID not provided in request headers.")⟩, [], [])
        | some user_id =>
          if user_id = "" then
            (⟨400, RespBody.json (errBody "User ID not provided in request headers.")⟩, [], [])
          else
            let r := saveLoop addResult (collPath user_id) items 0
            match r.2.2 with
            | none =>
              (⟨200, RespBody.json (msgBody
                ("Successfully saved " ++ toString items.length ++ " items to Firestore."))⟩,
               r.1, r.2.1)
            | some msg =>
              (⟨500, RespBody.json
                (errBody ("An error occurred while saving to the database: " ++ msg))⟩,
               r.1, r.2.1)
      | _ =>
        (⟨400, RespBody.json (errBody "Invalid data format. Expected a JSON array.")⟩, [], [])

/-! ### Concrete fixtures from the spec's testable properties -/

/-- The mocked inference response of the spec's parse-receipt test. -/
def mockResponse : String :=
  "[\x7b\"receiptName\":\"MILK 2L\",\"humanName\":\"Milk\",\"quantity\":1,\"cost\":3.49,\"useByDate\":\"2024-01-10\",\"storage\":\"Fridge\"\x7d]"

/-- The decoded grocery item of `mockResponse`. -/
def mockItem : Json :=
  Json.obj [("receiptName", Json.str "MILK 2L"), ("humanName", Json.str "Milk"),
    ("quantity", Json.num 1), ("cost", Json.num (mkRat 349 100)),
    ("useByDate", Json.str "2024-01-10"), ("storage", Json.str "Fridge")]

/-! ### Lemmas about the write loop -/

/-- When every `add` call succeeds, the loop issues one call per item, in
input order, against the given path, and persists every item. -/
theorem saveLoop_ok (addResult : Nat → Option String) (path : String)
    (h : ∀ k, addResult k = none) :
    ∀ (items : List Json) (k : Nat),
      saveLoop addResult path items k =
        (items.map (fun item => ⟨path, item⟩), items, none)
  | [], _ => rfl
  | item :: rest, k => by
    simp [saveLoop, h k, saveLoop_ok addResult path h rest (k + 1)]

/-- When the `j`-th `add` call (0-indexed, counting from offset `k`) raises
and all earlier ones succeed, the loop issues exactly the first `j + 1`
calls, persists exactly the first `j` items, and reports the exception. -/
theorem saveLoop_fail (addResult : Nat → Option String) (path : String) :
    ∀ (items : List Json) (k j : Nat) (msg : String),
      j < items.length → addResult (k + j) = some msg →
      (∀ i, i < j → addResult (k + i) = none) →
      saveLoop addResult path items k =
        ((items.take (j + 1)).map (fun item => ⟨path, item⟩), items.take j, some msg)
  | [], _, _, _, hj, _, _ => absurd hj (by simp)
  | item :: rest, k, 0, msg, _, hfail, _ => by
    have h0 : addResult k = some msg := by simpa using hfail
    simp [saveLoop, h0]
  | item :: rest, k, j + 1, msg, hj, hfail, hok => by
    have h0 : addResult k = none := by simpa using hok 0 (Nat.succ_pos j)
    have ih := saveLoop_fail addResult path rest (k + 1) j msg
      (Nat.lt_of_succ_lt_succ hj)
      (by have hkj : k + 1 + j = k + (j + 1) := by omega
          rw [hkj]; exact hfail)
      (fun i hi => by
        have hki : k + 1 + i = k + (i + 1) := by omega
        rw [hki]; exact hok (i + 1) (Nat.succ_lt_succ hi))
    simp [saveLoop, h0, ih]

/-! ### Claim theorems -/

/-- Claim C1: for a `POST /save-items` request whose body is a JSON array of
`n` items and whose `X-User-ID` header is a non-empty `u`, with the database
client initialized and every `add` call succeeding, the handler issues
exactly one `add` call per element, in input order, against
`artifacts/default-app-id/users/<u>/groceries`, and returns HTTP 200 with a
message containing `n`, the input length. -/
theorem save_items_ok_adds_each_item_in_order
    (addResult : Nat → Option String) (hok : ∀ k, addResult k = none)
    (items : List Json) (u : String) (hu : ¬ u = "") :
    save_items true addResult ⟨Except.ok (Json.arr items), some u⟩ =
      (⟨200, RespBody.json (msgBody
         ("Successfully saved " ++ toString items.length ++ " items to Firestore."))⟩,
       items.map (fun item => ⟨collPath u, item⟩), items) := by
  simp [save_items, hu, saveLoop_ok addResult (collPath u) hok items 0]

/-- Witness for C1 at a concrete two-item request. -/
theorem save_items_ok_adds_each_item_in_order_witness :
    save_items true (fun _ => none)
        ⟨Except.ok (Json.arr [Json.num 1, Json.str "milk"]), some "u1"⟩ =
      (⟨200, RespBody.json (msgBody "Successfully saved 2 items to Firestore.")⟩,
       [⟨collPath "u1", Json.num 1⟩, ⟨collPath "u1", Json.str "milk"⟩],
       [Json.num 1, Json.str "milk"]) :=
  save_items_ok_adds_each_item_in_order (fun _ => none) (fun _ => rfl)
    [Json.num 1, Json.str "milk"] "u1" (by decide)

/-- Claim C2: if the `add` call raises on item index `j` (all earlier calls
succeeding), the handler issues no further `add` calls, returns HTTP 500
with the generic database error message, and exactly the first `j` items
(the first `k - 1` for the 1-indexed `k`-th item) remain persisted: no
rollback or cleanup. -/
theorem save_items_aborts_on_failure
    (addResult : Nat → Option String) (items : List Json) (u : String)
    (hu : ¬ u = "") (j : Nat) (msg : String) (hj : j < items.length)
    (hfail : addResult j = some msg) (hok : ∀ i, i < j → addResult i = none) :
    save_items true addResult ⟨Except.ok (Json.arr items), some u⟩ =
      (⟨500, RespBody.json
         (errBody ("An error occurred while saving to the database: " ++ msg))⟩,
       (items.take (j + 1)).map (fun item => ⟨collPath u, item⟩),
       items.take j) := by
  have h := saveLoop_fail addResult (collPath u) items 0 j msg hj
    (by simpa using hfail) (fun i hi => by simpa using hok i hi)
  simp [save_items, hu, h]

/-- Witness for C2: the second of three items fails; the handler returns
500, has issued two calls, and persisted only the first item. -/
theorem save_items_aborts_on_failure_witness :
    save_items true (fun k => if k = 1 then some "boom" else none)
        ⟨Except.ok (Json.arr [Json.num 1, Json.num 2, Json.num 3]), some "u1"⟩ =
      (⟨500, RespBody.json
         (errBody "An error occurred while saving to the database: boom")⟩,
       [⟨collPath "u1", Json.num 1⟩, ⟨collPath "u1", Json.num 2⟩],
       [Json.num 1]) :=
  save_items_aborts_on_failure (fun k => if k = 1 then some "boom" else none)
    [Json.num 1, Json.num 2, Json.num 3] "u1" (by decide) 1 "boom" (by decide) rfl
    (fun i hi => by
      have h0 : i = 0 := by omega
      subst h0; rfl)

/-- Claim C3: for a `POST /parse-receipt` request with an image whose bytes
read successfully, if the inference response text parses as a JSON array,
the handler returns HTTP 200 with that parsed array unmodified. -/
theorem parse_receipt_returns_parsed_array
    (f : ImageFile) (bytes : List Nat) (hread : f.readResult = Except.ok bytes)
    (generate : List PromptPart → Except String String) (s : String)
    (hgen : generate (promptParts bytes) = Except.ok s)
    (elems : List Json) (hparse : json_loads s = some (Json.arr elems)) :
    parse_receipt ⟨some f⟩ generate =
      (⟨200, RespBody.json (Json.arr elems)⟩, some (promptParts bytes)) := by
  simp [parse_receipt, hread, hgen, hparse]

/-- Witness for C3 at the spec's mocked inference response: the handler
returns 200 with exactly that array decoded. -/
theorem parse_receipt_returns_parsed_array_witness :
    parse_receipt ⟨some ⟨Except.ok []⟩⟩ (fun _ => Except.ok mockResponse) =
      (⟨200, RespBody.json (Json.arr [mockItem])⟩, some (promptParts [])) :=
  parse_receipt_returns_parsed_array ⟨Except.ok []⟩ [] rfl
    (fun _ => Except.ok mockResponse) mockResponse rfl [mockItem] rfl

/-- Claim C4: for a `POST /parse-receipt` request with an image whose bytes
read successfully, if the inference response text does not parse as JSON,
the handler returns HTTP 500 with an error body (it does not propagate the
decode exception), the inference call having been issued. -/
theorem parse_receipt_invalid_json_500
    (f : ImageFile) (bytes : List Nat) (hread : f.readResult = Except.ok bytes)
    (generate : List PromptPart → Except String String) (s : String)
    (hgen : generate (promptParts bytes) = Except.ok s)
    (hparse : json_loads s = none) :
    parse_receipt ⟨some f⟩ generate =
      (⟨500, RespBody.json
         (errBody "Failed to parse data from Gemini. Invalid JSON response.")⟩,
       some (promptParts bytes)) := by
  simp [parse_receipt, hread, hgen, hparse]

/-- Witness for C4 at the spec's non-JSON mocked response. -/
theorem parse_receipt_invalid_json_500_witness :
    parse_receipt ⟨some ⟨Except.ok []⟩⟩
        (fun _ => Except.ok "Sorry, I can\x27t read this.") =
      (⟨500, RespBody.json
         (errBody "Failed to parse data from Gemini. Invalid JSON response.")⟩,
       some (promptParts [])) :=
  parse_receipt_invalid_json_500 ⟨Except.ok []⟩ [] rfl
    (fun _ => Except.ok "Sorry, I can\x27t read this.")
    "Sorry, I can\x27t read this." rfl rfl

/-- Claim C5: when the database client failed to initialize (`db is None`),
`save_items` returns HTTP 500 for every request, whatever its body or
header, with no `add` call issued. -/
theorem save_items_db_uninitialized
    (addResult : Nat → Option String) (req : SaveItemsRequest) :
    save_items false addResult req =
      (⟨500, RespBody.json (errBody "Database not initialized. Cannot save data.")⟩,
       [], []) := rfl

/-- Claim C6: with the database client initialized, a parsed body that is
not an array yields HTTP 400, and an array body without an `X-User-ID`
header yields HTTP 400; in both cases no `add` call is issued. -/
theorem save_items_validation_400
    (addResult : Nat → Option String) (j : Json) (hj : j.isArr = false)
    (uid : Option String) (items : List Json) :
    save_items true addResult ⟨Except.ok j, uid⟩ =
      (⟨400, RespBody.json (errBody "Invalid data format. Expected a JSON array.")⟩,
       [], []) ∧
    save_items true addResult ⟨Except.ok (Json.arr items), none⟩ =
      (⟨400, RespBody.json (errBody "User ID not provided in request headers.")⟩,
       [], []) := by
  constructor
  · cases j <;> simp_all [save_items, Json.isArr]
  · rfl

/-- Witness for C6: a non-array object body with a header present, and an
array body with no header. -/
theorem save_items_validation_400_witness :
    save_items true (fun _ => none)
        ⟨Except.ok (Json.obj [("a", Json.num 1)]), some "u1"⟩ =
      (⟨400, RespBody.json (errBody "Invalid data format. Expected a JSON array.")⟩,
       [], []) ∧
    save_items true (fun _ => none) ⟨Except.ok (Json.arr [Json.num 1]), none⟩ =
      (⟨400, RespBody.json (errBody "User ID not provided in request headers.")⟩,
       [], []) :=
  save_items_validation_400 (fun _ => none) (Json.obj [("a", Json.num 1)]) rfl
    (some "u1") [Json.num 1]

/-- Claim C7: a `POST /parse-receipt` request without a file field `image`
yields HTTP 400, and the inference collaborator is never invoked (no
`generate_content` call in the trace). -/
theorem parse_receipt_no_image_400
    (generate : List PromptPart → Except String String) :
    parse_receipt ⟨none⟩ generate =
      (⟨400, RespBody.json (errBody "No image file provided")⟩, none) := rfl

/-- Claim C8: `GET /` returns HTTP 200 with a fixed text body; `home`
depends on no state and has no side effects. -/
theorem home_always_200 :
    home = ⟨200, RespBody.text "The backend server is running!"⟩ := rfl

/-- Claim C9: a `POST /save-items` request whose body is not parseable JSON
makes `request.get_json()` raise inside the `try` block, so the blanket
handler returns HTTP 500 (not 400) and no `add` call is issued. -/
theorem save_items_unparseable_body_500
    (addResult : Nat → Option String) (e : String) (uid : Option String) :
    save_items true addResult ⟨Except.error e, uid⟩ =
      (⟨500, RespBody.json
         (errBody ("An error occurred while saving to the database: " ++ e))⟩,
       [], []) := rfl

/-- Claim C10: for a `POST /parse-receipt` request with a readable image, if
the inference response parses as any JSON value, array or not, the handler
returns HTTP 200 with that value: no array-shape or per-field validation is
applied to the model output. -/
theorem parse_receipt_no_shape_validation
    (f : ImageFile) (bytes : List Nat) (hread : f.readResult = Except.ok bytes)
    (generate : List PromptPart → Except String String) (s : String)
    (hgen : generate (promptParts bytes) = Except.ok s)
    (j : Json) (hparse : json_loads s = some j) :
    parse_receipt ⟨some f⟩ generate =
      (⟨200, RespBody.json j⟩, some (promptParts bytes)) := by
  simp [parse_receipt, hread, hgen, hparse]

/-- Witness for C10: a mocked response that is a JSON string, not an array,
still yields HTTP 200 with that string as the body. -/
theorem parse_receipt_no_shape_validation_witness :
    parse_receipt ⟨some ⟨Except.ok []⟩⟩ (fun _ => Except.ok "\"hello\"") =
      (⟨200, RespBody.json (Json.str "hello")⟩, some (promptParts [])) :=
  parse_receipt_no_shape_validation ⟨Except.ok []⟩ [] rfl
    (fun _ => Except.ok "\"hello\"") "\"hello\"" rfl (Json.str "hello") rfl
